import Mathlib

/-!
Shallow embedding of the hybrid scoring and decision engine of the
Recruiter Spam Detection System, together with proofs checking the
natural-language specification against the code.

Modelling conventions:

* JS numbers are modelled as rationals (`ℚ`); `Math.round` rounds half
  toward positive infinity (`jsRound`); the numeric `||` fallback is
  `jsOr` (`0` is falsy; `NaN` does not arise on the modelled paths).
* `Math.sqrt(variance) > t` with `t ≥ 0` and `variance ≥ 0` is embedded
  as `variance > t^2`; theorems relating the embedding to `Real.sqrt`
  justify this.
* Asynchronous provider calls are modelled by explicit outcome values
  (success payloads, failures with messages); every `try/catch` based
  degradation becomes a total function of those outcomes.
* Thrown JS exceptions on paths that are not caught are modelled with
  `Except String`.
-/

namespace SpamDetect

/-- JS `Math.round`: rounds half toward positive infinity. -/
def jsRound (q : ℚ) : ℤ := (q + 1/2).floor

/-- JS numeric `a || b`: yields `b` when `a` is falsy (i.e. `0` here). -/
def jsOr (a b : ℚ) : ℚ := if a = 0 then b else a

/-- JS `Math.max(a, b)` on rationals. -/
def jsMax (a b : ℚ) : ℚ := if a ≤ b then b else a

/-- JS `Math.min(a, b)` on rationals. -/
def jsMin (a b : ℚ) : ℚ := if a ≤ b then a else b

theorem jsMax_eq (a b : ℚ) : jsMax a b = max a b := by
  rw [jsMax, max_def]

theorem jsMin_eq (a b : ℚ) : jsMin a b = min a b := by
  rw [jsMin, min_def]

theorem jsRound_eq_floor (q : ℚ) : jsRound q = ⌊q + 1/2⌋ := rfl

theorem jsRound_nonneg {q : ℚ} (h : 0 ≤ q) : 0 ≤ jsRound q := by
  rw [jsRound_eq_floor]
  have : ((0 : ℤ) : ℚ) ≤ q + 1/2 := by push_cast; linarith
  exact Int.le_floor.mpr this

theorem jsRound_le_hundred {q : ℚ} (h : q ≤ 100) : jsRound q ≤ 100 := by
  have : jsRound q < 101 := by
    rw [jsRound_eq_floor]
    refine Int.floor_lt.mpr ?_
    push_cast
    linarith
  omega

theorem jsOr_zero (b : ℚ) : jsOr 0 b = b := by simp [jsOr]

theorem jsOr_of_ne {a : ℚ} (b : ℚ) (h : a ≠ 0) : jsOr a b = a := by simp [jsOr, h]

/-- `a.isPrefixOf`-style boolean prefix test on character lists. -/
def charsPrefix : List Char → List Char → Bool
  | [], _ => true
  | _ :: _, [] => false
  | a :: as, b :: bs => a == b && charsPrefix as bs

/-- Boolean contiguous-sublist test on character lists. -/
def charsSeg (needle : List Char) : List Char → Bool
  | [] => charsPrefix needle []
  | c :: rest => charsPrefix needle (c :: rest) || charsSeg needle rest

/-- JS `hay.includes(needle)`. -/
def strIncludes (hay needle : String) : Bool := charsSeg needle.data hay.data

/-- JS `s.startsWith(p)`. -/
def strStartsWith (s p : String) : Bool := charsPrefix p.data s.data

/-- Split a character list at every occurrence of `sep` (single-character
separator), keeping empty segments, as JS `split` does. -/
def splitChar (sep : Char) : List Char → List (List Char)
  | [] => [[]]
  | c :: rest =>
    if c == sep then [] :: splitChar sep rest
    else
      match splitChar sep rest with
      | [] => [[c]]
      | seg :: segs => (c :: seg) :: segs

/-- JS `s.split(sep)` for a one-character separator. -/
def jsSplit (sep : Char) (s : String) : List String :=
  (splitChar sep s.data).map fun cs => ⟨cs⟩

/-- JS `s.toLowerCase()` (ASCII, which is all the code compares). -/
def lowerStr (s : String) : String := ⟨s.data.map Char.toLower⟩

/-- JS `s.toUpperCase()` (ASCII). -/
def upperStr (s : String) : String := ⟨s.data.map Char.toUpper⟩

/-- JS `s.trim()`. -/
def trimStr (s : String) : String :=
  ⟨((s.data.dropWhile Char.isWhitespace).reverse.dropWhile Char.isWhitespace).reverse⟩

/-- The parsed pieces of `new URL(u)` that the code reads. -/
structure UrlParts where
  hostname : String
  protocolHttps : Bool
deriving DecidableEq

/-- The external validator and URL-parsing library functions the code calls
(`validator.isEmail`, `validator.isURL` with and without `require_protocol`,
and the `new URL` constructor, `none` meaning it throws). These live in
`node_modules`, not in the repository, so they are abstracted as parameters. -/
structure Parsers where
  isEmail : String → Bool
  isURL : String → Bool
  isURLProto : String → Bool
  parseURL : String → Option UrlParts

/-! ## Decision Engine (`scoringWorkflow.js`) -/

namespace Workflow

/-- One verification channel entry as consumed by the merge step.
`score = none` models an absent or non-numeric `score` field, which the
`typeof ... === 'number'` guard in `calculateExternalScore` filters out. -/
structure ChannelResult where
  score : Option ℚ
  isValid : Bool := false
  apiCalled : Bool := false
  error : Option String := none
deriving DecidableEq

/-- The object handed to `calculateExternalScore`; each channel field may be
absent entirely (`none`), failing the `externalData.X &&` truthiness test. -/
structure ExternalData where
  email : Option ChannelResult := none
  phone : Option ChannelResult := none
  company : Option ChannelResult := none
  domain : Option ChannelResult := none
deriving DecidableEq

/-- `externalData.X && typeof externalData.X.score === 'number'`. -/
def channelScore? : Option ChannelResult → Option ℚ
  | some ch => ch.score
  | none => none

/-- `calculateExternalScore`: average of the numerically-scored channels,
or the default 50 when the data is absent or no channel has a numeric score. -/
def calculateExternalScore (externalData : Option ExternalData) : ℚ :=
  match externalData with
  | none => 50
  | some d =>
    let scores := [channelScore? d.email, channelScore? d.phone,
                   channelScore? d.company, channelScore? d.domain].reduceOption
    if scores = [] then 50 else scores.sum / scores.length

/-- Mean of the three raw scores inside `calculateConfidence`. -/
def scoreMean (s1 s2 s3 : ℚ) : ℚ := (s1 + s2 + s3) / 3

/-- Population variance of the three raw scores inside `calculateConfidence`. -/
def scoreVariance (s1 s2 s3 : ℚ) : ℚ :=
  ((s1 - scoreMean s1 s2 s3) ^ 2 + (s2 - scoreMean s1 s2 s3) ^ 2 +
      (s3 - scoreMean s1 s2 s3) ^ 2) / 3

/-- The agreement test of `calculateConfidence`: all scores strictly above 70,
or all strictly below 40. -/
def agreementBonus (s1 s2 s3 : ℚ) : Bool :=
  decide ((s1 > 70 ∧ s2 > 70 ∧ s3 > 70) ∨ (s1 < 40 ∧ s2 < 40 ∧ s3 < 40))

/-- `calculateConfidence`. The code compares `Math.sqrt(variance)` against
20 and 10; over nonnegative reals that is equivalent to comparing the
variance against 400 and 100 (proved below as `stdDev_gt_iff`). -/
def calculateConfidence (ruleScore aiScore externalScore aiConfidence : ℚ) : ℚ :=
  let variance := scoreVariance ruleScore aiScore externalScore
  let confidence :=
    if variance > 400 then aiConfidence - 15
    else if variance > 100 then aiConfidence - 8
    else aiConfidence
  let confidence := if agreementBonus ruleScore aiScore externalScore then confidence + 10 else confidence
  jsMax 0 (jsMin 100 confidence)

/-- The scoring weights (`RULE_BASED_WEIGHT` etc., with their `|| 0.3/0.4/0.3`
environment defaults). -/
structure Weights where
  ruleBased : ℚ := 3/10
  llm : ℚ := 2/5
  external : ℚ := 3/10
deriving DecidableEq

/-- Engine configuration: the weights plus `spamThreshold` (`|| 70`). -/
structure Config where
  weights : Weights := {}
  spamThreshold : ℚ := 70
deriving DecidableEq

def defaultConfig : Config := {}

/-- The fields of the three partial results that `calculateFinalScore` reads. -/
structure ScoreInput where
  ruleScore : ℚ
  llmScore : ℚ
  llmConfidence : ℚ
  externalVerification : Option ExternalData
deriving DecidableEq

structure Breakdown where
  ruleBasedWeighted : ℚ
  llmWeighted : ℚ
  externalWeighted : ℚ
  rawRuleBased : ℚ
  rawLlm : ℚ
  rawExternal : ℚ
deriving DecidableEq

structure ScoreResult where
  finalScore : ℤ
  confidence : ℤ
  breakdown : Breakdown
deriving DecidableEq

/-- `calculateFinalScore`: zero-coerces the rule and LLM scores and the LLM
confidence via `|| 50`, averages the external channels, and combines. -/
def calculateFinalScore (cfg : Config) (inp : ScoreInput) : ScoreResult :=
  let ruleScore := jsOr inp.ruleScore 50
  let aiScore := jsOr inp.llmScore 50
  let externalScore := calculateExternalScore inp.externalVerification
  let weightedScore := ruleScore * cfg.weights.ruleBased + aiScore * cfg.weights.llm +
    externalScore * cfg.weights.external
  let confidence :=
    calculateConfidence ruleScore aiScore externalScore (jsOr inp.llmConfidence 50)
  { finalScore := jsRound (jsMax 0 (jsMin 100 weightedScore))
    confidence := jsRound confidence
    breakdown :=
      { ruleBasedWeighted := ruleScore * cfg.weights.ruleBased
        llmWeighted := aiScore * cfg.weights.llm
        externalWeighted := externalScore * cfg.weights.external
        rawRuleBased := ruleScore
        rawLlm := aiScore
        rawExternal := externalScore } }

inductive Decision
  | approved
  | flagged
  | pending_review
deriving DecidableEq

/-- `makeDecision`, returning the decision together with the recommendation. -/
def makeDecision (cfg : Config) (finalScore confidence : ℚ) : Decision × String :=
  if finalScore ≥ cfg.spamThreshold ∧ confidence ≥ 70 then
    (.approved, "Recruiter appears legitimate and can be auto-approved")
  else if finalScore < 40 ∧ confidence ≥ 60 then
    (.flagged, "High spam probability - recommend rejection")
  else if confidence < 50 then
    (.pending_review, "Low confidence in assessment - requires human review")
  else
    (.pending_review, "Score in uncertain range - manual review recommended")

/-- One entry of the `results` array built by `batchScoreRecruiters`.
`rejectedReason` models the `r.reason` Error object pushed when the mapped
promise rejected (the `continueOnError = false` re-throw captured by
`Promise.allSettled`). -/
inductive BatchEntry
  | ok (recruiterId : String)
  | failed (recruiterId : String) (error : String)
  | rejectedReason (error : String)
deriving DecidableEq

def BatchEntry.isSuccess : BatchEntry → Bool
  | .ok _ => true
  | _ => false

/-- `recruiterIds.slice(i, i + concurrency)` chunking of the batch loop
(for `concurrency ≥ 1`; with `concurrency = 0` the JS loop never advances).
Structured with a fuel argument (the list length suffices, since every
round consumes at least the head) to keep the definition structural. -/
def chunkListAux : ℕ → ℕ → List String → List (List String)
  | 0, _, _ => []
  | _, _, [] => []
  | fuel + 1, n, x :: xs => (x :: xs.take (n - 1)) :: chunkListAux fuel n (xs.drop (n - 1))

def chunkList (n : ℕ) (l : List String) : List (List String) :=
  chunkListAux l.length n l

structure BatchResult where
  total : ℕ
  successful : ℕ
  failed : ℕ
  results : List BatchEntry
deriving DecidableEq

/-- `batchScoreRecruiters`, with the per-subject pipeline abstracted as
`score : String → Except String Unit`. Each chunk is mapped through the
per-id closure; a failure either becomes a `{success:false, ...}` entry
(`continueOnError`) or re-throws, which `Promise.allSettled` converts to a
rejected entry whose reason is pushed into `results`. -/
def batchScoreRecruiters (score : String → Except String Unit)
    (recruiterIds : List String) (concurrency : ℕ) (continueOnError : Bool) :
    BatchResult :=
  let results := (chunkList concurrency recruiterIds).flatMap fun batch =>
    batch.map fun recruiterId =>
      match score recruiterId with
      | .ok _ => BatchEntry.ok recruiterId
      | .error e =>
        if continueOnError then BatchEntry.failed recruiterId e
        else BatchEntry.rejectedReason e
  let successful := (results.filter BatchEntry.isSuccess).length
  { total := results.length
    successful := successful
    failed := results.length - successful
    results := results }

end Workflow

/-! ## Semantic Assessor Adapter (`llmScoring.js`) -/

namespace LLM

/-- A JSON value to the extent the response validation inspects it. -/
inductive JVal
  | num (q : ℚ)
  | str (s : String)
  | arr (elems : List JVal)
  | missing

/-- The parsed provider payload; every field may hold any JSON value. -/
structure GeminiResponse where
  score : JVal := .missing
  confidence : JVal := .missing
  reasoning : JVal := .missing
  redFlags : JVal := .missing
  positiveIndicators : JVal := .missing
  recommendation : JVal := .missing

/-- The adapter's normalized result object. -/
structure AssessOutput where
  score : ℤ
  confidence : ℤ
  reasoning : String
  redFlags : List String
  positiveIndicators : List String
  recommendation : String
  error : Bool
deriving DecidableEq

def jStr? : JVal → Option String
  | .str s => some s
  | _ => none

/-- The validation applied identically to the `score` and `confidence`
fields: keep a numeric value within [0,100] (rounded), else the default 50. -/
def normalizeScoreField : JVal → ℤ
  | .num q => if 0 ≤ q ∧ q ≤ 100 then jsRound q else 50
  | _ => 50

/-- Whether a field would pass that validation unchanged. -/
def JVal.isValidScore : JVal → Bool
  | .num q => decide (0 ≤ q ∧ q ≤ 100)
  | _ => false

/-- `normalizeResponse`: field-wise validation with per-field defaults.
A result object from the success path carries no `error` property, modelled
as `error := false`. -/
def normalizeResponse (response : GeminiResponse) : AssessOutput :=
  let score : ℤ := normalizeScoreField response.score
  let confidence : ℤ := normalizeScoreField response.confidence
  let reasoning : String :=
    match response.reasoning with
    | .str s => if trimStr s = "" then "No reasoning provided" else trimStr s
    | _ => "No reasoning provided"
  let redFlags : List String :=
    match response.redFlags with
    | .arr elems => elems.filterMap jStr?
    | _ => []
  let positiveIndicators : List String :=
    match response.positiveIndicators with
    | .arr elems => elems.filterMap jStr?
    | _ => []
  let recommendation : String :=
    match response.recommendation with
    | .str s => if s = "approve" ∨ s = "flag" ∨ s = "manual_review" then s else "manual_review"
    | _ => "manual_review"
  { score := score, confidence := confidence, reasoning := reasoning,
    redFlags := redFlags, positiveIndicators := positiveIndicators,
    recommendation := recommendation, error := false }

/-- The possible outcomes of one provider interaction, as distinguished by
the adapter's `try` block. -/
inductive ProviderOutcome
  | apiKeyMissing
  | callFailure (message : String)
  | unparseable (raw : String)
  | parsed (response : GeminiResponse)

/-- `getFallbackScore`. -/
def fallbackScore (errorMessage : String) : AssessOutput :=
  { score := 50
    confidence := 0
    reasoning := "LLM analysis failed: " ++ errorMessage ++ ". Manual review recommended."
    redFlags := ["LLM_ANALYSIS_FAILED"]
    positiveIndicators := []
    recommendation := "manual_review"
    error := true }

/-- The adapter `scoreRecruiter`: the whole body is a `try/catch` whose
`catch` returns `getFallbackScore`, so it is a total function of the
provider outcome. -/
def scoreRecruiter (outcome : ProviderOutcome) : AssessOutput :=
  match outcome with
  | .apiKeyMissing => fallbackScore "Gemini API key not configured"
  | .callFailure msg => fallbackScore msg
  | .unparseable _ => fallbackScore "Invalid JSON response from Gemini"
  | .parsed response => normalizeResponse response

/-- Which outcomes take the `catch` path. -/
def ProviderOutcome.isHardFailure : ProviderOutcome → Bool
  | .parsed _ => false
  | _ => true

end LLM

/-! ## External Verification Aggregator (`externalVerification.js`) -/

namespace ExternalV

/-- The fields of a Hunter.io email-verifier response that the code reads. -/
structure HunterData where
  result : String := ""
  mxRecords : Bool := false
  smtpServer : Bool := false
  smtpCheck : Bool := false
deriving DecidableEq

/-- Environment of one `verifyEmail` call: API-key validity, the API call's
outcome (`Except.error` = the HTTP request threw, e.g. a timeout), and the
result of the DNS check for the email's domain. -/
structure EmailEnv where
  apiKeyValid : Bool
  apiOutcome : Except String HunterData
  dnsValid : Bool

def verifyEmail (isEmail : String → Bool) (env : EmailEnv) (email : Option String) :
    Workflow.ChannelResult :=
  let invalid : Workflow.ChannelResult :=
    { score := some 0, isValid := false, error := some "Invalid email format" }
  match email with
  | none => invalid
  | some e =>
    if e = "" ∨ isEmail e = false then invalid
    else if env.apiKeyValid = false then
      { score := some (if env.dnsValid then 60 else 20), isValid := env.dnsValid }
    else
      match env.apiOutcome with
      | .ok data =>
        let base : ℚ :=
          if data.result = "deliverable" then 90
          else if data.result = "undeliverable" then 10
          else if data.result = "risky" then 30
          else if data.result = "unknown" then 50
          else 50
        let score := base + (if data.mxRecords then 5 else 0) +
          (if data.smtpServer then 5 else 0) + (if data.smtpCheck then 10 else 0)
        { score := some (jsMin 100 score)
          isValid := data.result = "deliverable"
          apiCalled := true }
      | .error msg =>
        -- catch: fall back to the DNS check, at a lower score
        { score := some (if env.dnsValid then 40 else 10)
          isValid := env.dnsValid
          error := some msg }

/-- The fields of a Numverify response that the code reads. A response with
an `error` payload makes the code throw into its own `catch`, so it is
modelled as `Except.error`. -/
structure NumverifyData where
  valid : Bool := false
  lineType : String := ""
  carrier : String := ""
deriving DecidableEq

structure PhoneEnv where
  apiKeyValid : Bool
  apiOutcome : Except String NumverifyData

/-- `phoneNumber.replace(/[\s\-\(\)\+]/g, '')`. -/
def cleanPhoneStr (p : String) : String :=
  ⟨p.data.filter fun c => !(c.isWhitespace || c == '-' || c == '(' || c == ')' || c == '+')⟩

/-- `/^[\d]{10,15}$/.test(cleanPhone)`. -/
def isBasicPhone (cp : String) : Bool :=
  cp.data.all Char.isDigit && decide (10 ≤ cp.length ∧ cp.length ≤ 15)

def verifyPhone (env : PhoneEnv) (phone : Option String) : Workflow.ChannelResult :=
  let missing : Workflow.ChannelResult :=
    { score := some 0, isValid := false, error := some "Phone number not provided" }
  match phone with
  | none => missing
  | some p =>
    if p = "" then missing
    else
      let basicValid := isBasicPhone (cleanPhoneStr p)
      if env.apiKeyValid = false then
        { score := some (if basicValid then 50 else 20), isValid := basicValid }
      else
        match env.apiOutcome with
        | .ok data =>
          let base : ℚ := if data.valid then 80 else 20
          let score := base + (if data.lineType = "mobile" then 10 else 0) +
            (if data.carrier.length > 0 then 5 else 0)
          { score := some (jsMin 100 score), isValid := data.valid, apiCalled := true }
        | .error msg =>
          { score := some (if basicValid then 30 else 10)
            isValid := basicValid
            error := some msg }

/-- The Clearbit company payload as far as the code reads it. -/
structure ClearbitData where
  name : Option String := none
deriving DecidableEq

/-- The scraped website summary that `combineCompanyData` scores. -/
structure WebData where
  hasContactPage : Bool := false
  hasAboutPage : Bool := false
  hasPrivacyPolicy : Bool := false
  hasTermsOfService : Bool := false
  linkedin : Bool := false
  twitter : Bool := false
  facebook : Bool := false
  contentLength : ℕ := 0
  isSSL : Bool := false
deriving DecidableEq

/-- Environment of one `verifyCompany` call. A failed Clearbit lookup or a
failed scrape is caught locally (logged) and treated as absent data. -/
structure CompanyEnv where
  clearbitKeyValid : Bool
  clearbitOutcome : Except String ClearbitData
  scrapeOutcome : Except String WebData

/-- The Clearbit phase of `combineCompanyData`: base score 40; Clearbit data
raises it to 85, plus 10 when the Clearbit name contains the subject's
company name. Reading `companyName.toLowerCase()` while `companyName` is
absent throws a `TypeError` (caught by `verifyCompany`'s outer catch),
hence the `Except`. Returns (isValid, score). -/
def companyClearbitPhase (companyName : Option String) :
    Option ClearbitData → Except String (Bool × ℚ)
  | none => .ok (false, 40)
  | some cd =>
    match cd.name with
    | some n =>
      if n = "" then .ok (true, 85)
      else
        match companyName with
        | none => .error "TypeError: Cannot read properties of undefined"
        | some cn =>
          .ok (true, if strIncludes (lowerStr n) (lowerStr cn) then 95 else 85)
    | none => .ok (true, 85)

/-- The web-scraping phase of `combineCompanyData`: with web data the result
is valid; without Clearbit data the score restarts at 60; then the fixed
per-signal bonuses are added. -/
def companyWebPhase (hasClearbit : Bool) (p : Bool × ℚ) :
    Option WebData → Bool × ℚ
  | none => p
  | some wd =>
    (true,
      (if hasClearbit then p.2 else 60) + (if wd.hasContactPage then 5 else 0) +
        (if wd.hasAboutPage then 5 else 0) + (if wd.hasPrivacyPolicy then 3 else 0) +
        (if wd.isSSL then 5 else 0) + (if wd.linkedin then 8 else 0) +
        (if wd.twitter ∨ wd.facebook then 3 else 0) +
        (if wd.contentLength > 5000 then 5 else 0))

/-- `combineCompanyData`, phased as above, capping the score at 100. -/
def combineCompanyData (companyName : Option String)
    (clearbitData : Option ClearbitData) (webData : Option WebData) :
    Except String Workflow.ChannelResult :=
  (companyClearbitPhase companyName clearbitData).map fun p =>
    let q := companyWebPhase clearbitData.isSome p webData
    { score := some (jsMin 100 q.2)
      isValid := q.1
      apiCalled := clearbitData.isSome }

/-- The outer `catch` of `verifyCompany`: a thrown error degrades to the
fixed `{score: 30, error}` result. -/
def companyCatch : Except String Workflow.ChannelResult → Workflow.ChannelResult
  | .ok r => r
  | .error msg => { score := some 30, isValid := false, error := some msg }

def verifyCompany (env : CompanyEnv) (companyName websiteUrl : Option String) :
    Workflow.ChannelResult :=
  let urlPresent : Bool := match websiteUrl with
    | some w => w != ""
    | none => false
  let clearbitData : Option ClearbitData :=
    if env.clearbitKeyValid && urlPresent then env.clearbitOutcome.toOption else none
  let webData : Option WebData :=
    if urlPresent then env.scrapeOutcome.toOption else none
  companyCatch (combineCompanyData companyName clearbitData webData)

structure DomainEnv where
  dnsValid : Bool
deriving DecidableEq

def verifyDomain (isURL : String → Bool) (parseURL : String → Option UrlParts)
    (env : DomainEnv) (websiteUrl : Option String) : Workflow.ChannelResult :=
  let invalid : Workflow.ChannelResult :=
    { score := some 0, isValid := false, error := some "Invalid URL" }
  match websiteUrl with
  | none => invalid
  | some w =>
    if w = "" ∨ isURL w = false then invalid
    else
      match parseURL w with
      | none =>
        -- `new URL(websiteUrl)` threw: outer catch
        { score := some 10, isValid := false, error := some "Invalid URL" }
      | some url =>
        let base : ℚ := if env.dnsValid then 70 else 20
        let score := base + (if url.protocolHttps then 10 else 0) +
          (if (jsSplit '.' url.hostname).length ≤ 2 then 5 else 0)
        { score := some (jsMin 100 score), isValid := env.dnsValid }

/-- The contact attributes `verifyAll` reads off the recruiter record. -/
structure Contact where
  businessEmail : Option String := none
  phoneNumber : Option String := none
  companyName : Option String := none
  websiteUrl : Option String := none
deriving DecidableEq

structure Env where
  emailEnv : EmailEnv
  phoneEnv : PhoneEnv
  companyEnv : CompanyEnv
  domainEnv : DomainEnv

structure VerifyAllResult where
  email : Workflow.ChannelResult
  phone : Workflow.ChannelResult
  company : Workflow.ChannelResult
  domain : Workflow.ChannelResult
  errors : List String
  apiCallsCount : ℕ
deriving DecidableEq

/-- `verifyAll`: the four channels run under `Promise.allSettled`; each
channel function catches internally, so each settles with a result object.
The error list accumulates every channel result carrying an `error`. -/
def verifyAll (isEmail isURL : String → Bool) (parseURL : String → Option UrlParts)
    (env : Env) (c : Contact) : VerifyAllResult :=
  let email := verifyEmail isEmail env.emailEnv c.businessEmail
  let phone := verifyPhone env.phoneEnv c.phoneNumber
  let company := verifyCompany env.companyEnv c.companyName c.websiteUrl
  let domain := verifyDomain isURL parseURL env.domainEnv c.websiteUrl
  let all := [email, phone, company, domain]
  { email := email, phone := phone, company := company, domain := domain
    errors := all.filterMap (·.error)
    apiCallsCount := (all.filter (·.apiCalled)).length }

/-- The results object as later consumed by the workflow's
`calculateExternalScore` (all four channels are present on it). -/
def VerifyAllResult.toExternalData (r : VerifyAllResult) : Workflow.ExternalData :=
  { email := some r.email, phone := some r.phone,
    company := some r.company, domain := some r.domain }

end ExternalV

/-! ## Rule Engine (`ruleBasedScoring.js`) -/

namespace Rules

/-- The subject attributes the rule engine reads; `none` models a missing or
null attribute on the plain JSON object. -/
structure Subject where
  companyName : Option String := none
  role : Option String := none
  industry : Option String := none
  businessEmail : Option String := none
  phoneNumber : Option String := none
  websiteUrl : Option String := none
deriving DecidableEq

structure Flag where
  type : String
  severity : String
  impact : ℤ
deriving DecidableEq

structure CategoryResult where
  score : ℚ
  flags : List Flag
deriving DecidableEq

def suspiciousCompanyKeywords : List String :=
  ["fake", "scam", "test", "xxx", "123", "temp", "sample",
   "demo", "placeholder", "example", "null", "undefined"]

/-- The role keywords exactly as written in the source; the code tests them
with case-sensitive `includes` against the lowercased role. -/
def suspiciousRoleKeywords : List String :=
  ["CEO", "founder", "owner", "president", "VP", "director"]

def suspiciousIndustryKeywords : List String :=
  ["adult", "gambling", "cryptocurrency", "mlm", "pyramid"]

def freeEmailProviders : List String :=
  ["gmail.com", "yahoo.com", "hotmail.com", "outlook.com",
   "protonmail.com", "mail.com", "10minutemail.com",
   "tempmail.org", "guerrillamail.com"]

/-- `checkKeywords`: dereferences `companyName`, `role` and `industry`
without a guard, so an absent attribute throws a `TypeError`. -/
def checkKeywords (data : Subject) : Except String CategoryResult :=
  match data.companyName with
  | none => .error "TypeError: data.companyName is undefined"
  | some companyName =>
    match data.role with
    | none => .error "TypeError: data.role is undefined"
    | some role =>
      match data.industry with
      | none => .error "TypeError: data.industry is undefined"
      | some industry =>
        let companyHits := suspiciousCompanyKeywords.filter (strIncludes (lowerStr companyName) ·)
        let roleHits := suspiciousRoleKeywords.filter (strIncludes (lowerStr role) ·)
        let industryHits := suspiciousIndustryKeywords.filter (strIncludes (lowerStr industry) ·)
        let score : ℚ := 85 - 15 * companyHits.length - 5 * roleHits.length -
          20 * industryHits.length
        let flags :=
          companyHits.map (fun _ => Flag.mk "suspicious_company_keyword" "high" (-15)) ++
          roleHits.map (fun _ => Flag.mk "senior_role_flag" "medium" (-5)) ++
          industryHits.map (fun _ => Flag.mk "high_risk_industry" "high" (-20))
        .ok ⟨jsMax 0 score, flags⟩

/-- `/^[a-z]+[0-9]{3,}@/i`: one or more letters, then at least three digits,
then `@`, at the start of the lowercased string. The character classes are
disjoint, so greedy matching is exact. -/
def emailSpamPat1 (e : String) : Bool :=
  let cs := (lowerStr e).data
  let letters := cs.takeWhile fun c => 'a' ≤ c && c ≤ 'z'
  let rest := cs.drop letters.length
  let digits := rest.takeWhile Char.isDigit
  decide (1 ≤ letters.length) && decide (3 ≤ digits.length) &&
    ((rest.drop digits.length).headD ' ' == '@')

/-- `/^(test|admin|info|contact)[\d]*@/i`. -/
def emailSpamPat2 (e : String) : Bool :=
  let ls := lowerStr e
  ["test", "admin", "info", "contact"].any fun w =>
    strStartsWith ls w &&
      (let rest := ls.data.drop w.length
       let digits := rest.takeWhile Char.isDigit
       (rest.drop digits.length).headD ' ' == '@')

/-- `/noreply|no-reply|donotreply/i`. -/
def emailSpamPat3 (e : String) : Bool :=
  let ls := lowerStr e
  strIncludes ls "noreply" || strIncludes ls "no-reply" || strIncludes ls "donotreply"

/-- Number of email spam patterns matching (each adds its own flag and -25). -/
def emailPatHits (e : String) : ℕ :=
  (if emailSpamPat1 e then 1 else 0) + (if emailSpamPat2 e then 1 else 0) +
    (if emailSpamPat3 e then 1 else 0)

/-- `analyzeEmail`. After the validator accepts, the code reads
`email.split('@')[1].toLowerCase()`, which throws when the accepted string
contains no `@` (the real validator never accepts such a string). -/
def analyzeEmail (isEmail : String → Bool) (email : Option String) :
    Except String CategoryResult :=
  let invalid : CategoryResult := ⟨30, [Flag.mk "invalid_email" "high" (-50)]⟩
  match email with
  | none => .ok invalid
  | some e =>
    if e = "" ∨ isEmail e = false then .ok invalid
    else
      match (jsSplit '@' e)[1]? with
      | none => .error "TypeError: email domain is undefined"
      | some afterAt =>
        let domain := lowerStr afterAt
        let fromFree := freeEmailProviders.contains domain
        let hits := emailPatHits e
        let lengthFlag := domain.length < 4 ∨ domain.length > 50
        let score : ℚ := 80 - (if fromFree then 10 else 0) - 25 * hits -
          (if lengthFlag then 5 else 0)
        let flags :=
          (if fromFree then [Flag.mk "free_email_provider" "medium" (-10)] else []) ++
          List.replicate hits (Flag.mk "spam_email_pattern" "high" (-25)) ++
          (if lengthFlag then [Flag.mk "suspicious_domain_length" "medium" (-5)] else [])
        .ok ⟨jsMax 0 score, flags⟩

/-- Number of website spam patterns matching the raw URL (the two literal-IP
patterns are case-sensitive, the rest case-insensitive). -/
def websitePatHits (w : String) : ℕ :=
  let lw := lowerStr w
  (if strIncludes lw "localhost" then 1 else 0) +
  (if strIncludes w "192.168." then 1 else 0) +
  (if strIncludes w "127.0.0.1" then 1 else 0) +
  (if strIncludes lw "example.com" || strIncludes lw "example.org" ||
      strIncludes lw "example.net" then 1 else 0) +
  (if strIncludes lw "test.com" || strIncludes lw "test.org" ||
      strIncludes lw "test.net" then 1 else 0)

/-- `analyzeWebsite`: the whole body sits in a `try/catch`; the only
throwing operation is `new URL`, modelled by `parseURL` returning `none`. -/
def analyzeWebsite (isURLProto : String → Bool) (parseURL : String → Option UrlParts)
    (websiteUrl : Option String) : CategoryResult :=
  let invalid : CategoryResult := ⟨45, [Flag.mk "invalid_website_url" "high" (-30)]⟩
  match websiteUrl with
  | none => invalid
  | some w =>
    if w = "" ∨ isURLProto w = false then invalid
    else
      match parseURL w with
      | none => ⟨65, [Flag.mk "website_analysis_error" "medium" (-10)]⟩
      | some url =>
        let domain := lowerStr url.hostname
        let hits := websitePatHits w
        let shortDomain := domain.length < 4
        let manySubs := (jsSplit '.' domain).length > 4
        let score : ℚ := 75 - 25 * hits + (if url.protocolHttps then 5 else -5) -
          (if shortDomain then 10 else 0) - (if manySubs then 5 else 0)
        let flags :=
          List.replicate hits (Flag.mk "spam_website_pattern" "high" (-25)) ++
          (if url.protocolHttps then [] else [Flag.mk "no_https" "low" (-5)]) ++
          (if shortDomain then [Flag.mk "domain_too_short" "medium" (-10)] else []) ++
          (if manySubs then [Flag.mk "too_many_subdomains" "medium" (-5)] else [])
        ⟨jsMax 0 score, flags⟩

/-- `/^(\+?1)?[d]{3,}/`-style prefix patterns for a repeated digit `d`:
the optional group may consume nothing, `1`, or `+1`. -/
def phoneSpamPat (d : Char) (s : String) : Bool :=
  let rep : List Char → Bool := fun cs => decide (3 ≤ (cs.takeWhile (· == d)).length)
  let cs := s.data
  rep cs ||
    (match cs with
     | '1' :: rest => rep rest
     | _ => false) ||
    (match cs with
     | '+' :: '1' :: rest => rep rest
     | _ => false)

/-- Number of phone spam patterns matching the raw phone number. -/
def phonePatHits (p : String) : ℕ :=
  (if phoneSpamPat '0' p then 1 else 0) + (if phoneSpamPat '1' p then 1 else 0) +
    (if phoneSpamPat '9' p then 1 else 0)

/-- Largest per-character occurrence count in the cleaned phone number.
`Math.max()` of an empty count table is `-Infinity` in JS; both it and the
fold default `0` fail the `> 5` test, so the embedding agrees observably. -/
def maxDigitRepeat (cp : String) : ℕ :=
  (cp.data.map fun c => (cp.data.filter (· == c)).length).foldl max 0

/-- `analyzePhone`. -/
def analyzePhone (phoneNumber : Option String) : CategoryResult :=
  let missing : CategoryResult := ⟨65, [Flag.mk "missing_phone" "medium" (-15)]⟩
  match phoneNumber with
  | none => missing
  | some p =>
    if p = "" then missing
    else
      let cp := ExternalV.cleanPhoneStr p
      let lengthFlag := cp.length < 10 ∨ cp.length > 15
      let hits := phonePatHits p
      let repeatFlag := maxDigitRepeat cp > 5
      let score : ℚ := 80 - (if lengthFlag then 10 else 0) - 20 * hits -
        (if repeatFlag then 15 else 0)
      let flags :=
        (if lengthFlag then [Flag.mk "invalid_phone_length" "medium" (-10)] else []) ++
        List.replicate hits (Flag.mk "spam_phone_pattern" "high" (-20)) ++
        (if repeatFlag then [Flag.mk "repeated_digits" "medium" (-15)] else [])
      ⟨jsMax 0 score, flags⟩

/-- `/\d{3,}$/`. -/
def endsWithThreeDigits (s : String) : Bool :=
  decide (3 ≤ (s.data.reverse.takeWhile Char.isDigit).length)

def genericCompanyNames : List String := ["company", "business", "corp", "inc", "ltd", "llc"]

/-- `analyzeCompanyName`. -/
def analyzeCompanyName (companyName : Option String) : CategoryResult :=
  let invalid : CategoryResult := ⟨55, [Flag.mk "invalid_company_name" "high" (-30)]⟩
  match companyName with
  | none => invalid
  | some n =>
    if n = "" ∨ (trimStr n).length < 2 then invalid
    else
      let nameLower := trimStr (lowerStr n)
      let numFlag := endsWithThreeDigits nameLower
      let genFlag := genericCompanyNames.any fun g =>
        nameLower == g || strStartsWith nameLower (g ++ " ")
      let capsFlag := n = upperStr n ∧ n.length > 10
      let score : ℚ := 85 - (if numFlag then 10 else 0) - (if genFlag then 5 else 0) -
        (if capsFlag then 3 else 0)
      let flags :=
        (if numFlag then [Flag.mk "company_name_with_many_numbers" "medium" (-10)] else []) ++
        (if genFlag then [Flag.mk "generic_company_name" "medium" (-5)] else []) ++
        (if capsFlag then [Flag.mk "excessive_caps" "low" (-3)] else [])
      ⟨jsMax 0 score, flags⟩

def vagueIndustries : List String := ["other", "various", "multiple", "general"]

/-- `analyzeIndustry`. -/
def analyzeIndustry (industry : Option String) : CategoryResult :=
  let missing : CategoryResult := ⟨80, [Flag.mk "missing_industry" "medium" (-10)]⟩
  match industry with
  | none => missing
  | some i =>
    if i = "" ∨ (trimStr i).length < 2 then missing
    else
      let vague := vagueIndustries.contains (trimStr (lowerStr i))
      let score : ℚ := 90 - (if vague then 5 else 0)
      let flags := if vague then [Flag.mk "vague_industry" "low" (-5)] else []
      ⟨jsMax 0 score, flags⟩

structure RuleDetails where
  keywordScore : ℚ
  emailDomainScore : ℚ
  websiteScore : ℚ
  phoneScore : ℚ
  companyNameScore : ℚ
  industryScore : ℚ
  flags : List Flag
deriving DecidableEq

/-- Per-flag severity penalty of the rule engine's `calculateFinalScore`. -/
def flagPenalty (flags : List Flag) : ℚ :=
  (flags.map fun f =>
    if f.severity = "high" then (5 : ℚ) else if f.severity = "medium" then 2 else 1).sum

/-- The rule engine's `calculateFinalScore`. All six category components are
always set by `scoreRecruiter`, so every `details[component] !== undefined`
test passes and `totalWeight` is the full sum of the weights. -/
def calculateFinalScore (details : RuleDetails) : ℤ :=
  let weightedSum := details.keywordScore * (25/100) + details.emailDomainScore * (20/100) +
    details.websiteScore * (20/100) + details.phoneScore * (15/100) +
    details.companyNameScore * (15/100) + details.industryScore * (5/100)
  let totalWeight : ℚ := 25/100 + 20/100 + 20/100 + 15/100 + 15/100 + 5/100
  let baseScore := if totalWeight > 0 then weightedSum / totalWeight else 50
  jsRound (jsMax 0 (jsMin 100 (baseScore - flagPenalty details.flags)))

structure RuleResult where
  score : ℤ
  maxScore : ℤ := 100
  details : RuleDetails
deriving DecidableEq

/-- The rule engine's `scoreRecruiter`: runs the category analyzers in
source order; its own `catch` re-throws, so an exception escapes. -/
def scoreRecruiter (p : Parsers) (recruiterData : Subject) :
    Except String RuleResult := do
  let keywordResult ← checkKeywords recruiterData
  let emailResult ← analyzeEmail p.isEmail recruiterData.businessEmail
  let websiteResult := analyzeWebsite p.isURLProto p.parseURL recruiterData.websiteUrl
  let phoneResult := analyzePhone recruiterData.phoneNumber
  let companyResult := analyzeCompanyName recruiterData.companyName
  let industryResult := analyzeIndustry recruiterData.industry
  let details : RuleDetails :=
    { keywordScore := keywordResult.score
      emailDomainScore := emailResult.score
      websiteScore := websiteResult.score
      phoneScore := phoneResult.score
      companyNameScore := companyResult.score
      industryScore := industryResult.score
      flags := keywordResult.flags ++ emailResult.flags ++ websiteResult.flags ++
        phoneResult.flags ++ companyResult.flags ++ industryResult.flags }
  return { score := calculateFinalScore details, details := details }

end Rules

/-! ## Shared facts about the embedding -/

theorem scoreVariance_nonneg (s1 s2 s3 : ℚ) : 0 ≤ Workflow.scoreVariance s1 s2 s3 := by
  unfold Workflow.scoreVariance
  positivity

/-- Bridge justifying the embedding of `Math.sqrt(variance) > t` as
`variance > t^2` for the nonnegative thresholds the code uses. -/
theorem stdDev_gt_iff (v t : ℚ) (ht : 0 ≤ t) :
    ((t : ℝ) < Real.sqrt (v : ℝ)) ↔ t ^ 2 < v := by
  rw [Real.lt_sqrt (by exact_mod_cast ht)]
  constructor
  · intro h
    exact_mod_cast h
  · intro h
    exact_mod_cast h

theorem scoreVariance_mul_nine (s1 s2 s3 : ℚ) :
    9 * Workflow.scoreVariance s1 s2 s3 =
      (s1 - s2) ^ 2 + (s1 - s3) ^ 2 + (s2 - s3) ^ 2 := by
  unfold Workflow.scoreVariance Workflow.scoreMean
  ring

theorem clamp_lt_clamp {a b : ℚ} (hab : a < b) (ha : a < 100) (hb : 0 < b) :
    jsMax 0 (jsMin 100 a) < jsMax 0 (jsMin 100 b) := by
  simp only [jsMax, jsMin]
  split_ifs <;> linarith

theorem pos_of_clamp_pos {b : ℚ} (h : 0 < jsMax 0 (jsMin 100 b)) : 0 < b := by
  simp only [jsMax, jsMin] at h
  split_ifs at h <;> linarith

/-! ## C1: final score formula and range -/

def zeroChannel : Workflow.ChannelResult := { score := some 0 }

def allZeroExternal : Workflow.ExternalData :=
  { email := some zeroChannel, phone := some zeroChannel,
    company := some zeroChannel, domain := some zeroChannel }

/-- C1 (counterexample): with all three raw source scores equal to 0 (all
in [0,100]) and the default weights, the claimed formula gives 0 but the
engine gives 35, because the zero rule/LLM scores are coerced to 50 by
`score || 50` before weighting. -/
theorem C1_counterexample :
    (Workflow.calculateFinalScore Workflow.defaultConfig
        ⟨0, 0, 80, some allZeroExternal⟩).finalScore = 35 ∧
    jsRound (jsMax 0 (jsMin 100 ((0 : ℚ) * (3/10) + (0 : ℚ) * (2/5) + (0 : ℚ) * (3/10)))) = 0 := by
  constructor
  · norm_num [Workflow.calculateFinalScore, Workflow.calculateExternalScore,
      Workflow.channelScore?, zeroChannel, allZeroExternal, Workflow.defaultConfig,
      Workflow.calculateConfidence, Workflow.scoreVariance, Workflow.scoreMean,
      Workflow.agreementBonus, jsOr, jsMin, jsMax, jsRound_eq_floor,
      List.reduceOption, List.filterMap_cons, List.filterMap_nil, id_eq,
      List.cons_ne_nil]
  · norm_num [jsMin, jsMax, jsRound_eq_floor]

/-- C1 (amended): for weights in [0,1] summing to 1 within ±0.01 and rule and
semantic scores in [0,100], the final score equals
`round(clamp(rule·w_rule + llm·w_llm + external·w_external, 0, 100))` with the
rule and semantic scores first zero-coerced by `|| 50`, and it lies in [0,100]. -/
theorem C1_amended (wR wL wE r l c : ℚ) (ext : Option Workflow.ExternalData)
    (hwR : 0 ≤ wR ∧ wR ≤ 1) (hwL : 0 ≤ wL ∧ wL ≤ 1) (hwE : 0 ≤ wE ∧ wE ≤ 1)
    (hsum : |wR + wL + wE - 1| ≤ 1/100)
    (hr : 0 ≤ r ∧ r ≤ 100) (hl : 0 ≤ l ∧ l ≤ 100) :
    (Workflow.calculateFinalScore ⟨⟨wR, wL, wE⟩, 70⟩ ⟨r, l, c, ext⟩).finalScore =
      jsRound (jsMax 0 (jsMin 100 (jsOr r 50 * wR + jsOr l 50 * wL +
        Workflow.calculateExternalScore ext * wE))) ∧
    0 ≤ (Workflow.calculateFinalScore ⟨⟨wR, wL, wE⟩, 70⟩ ⟨r, l, c, ext⟩).finalScore ∧
    (Workflow.calculateFinalScore ⟨⟨wR, wL, wE⟩, 70⟩ ⟨r, l, c, ext⟩).finalScore ≤ 100 := by
  refine ⟨rfl, ?_, ?_⟩
  · apply jsRound_nonneg
    rw [jsMax_eq]
    exact le_max_left _ _
  · apply jsRound_le_hundred
    rw [jsMax_eq, jsMin_eq]
    exact max_le (by norm_num) (min_le_left _ _)

theorem C1_amended_witness :
    0 ≤ (Workflow.calculateFinalScore ⟨⟨3/10, 2/5, 3/10⟩, 70⟩
        ⟨80, 90, 70, none⟩).finalScore ∧
    (Workflow.calculateFinalScore ⟨⟨3/10, 2/5, 3/10⟩, 70⟩
        ⟨80, 90, 70, none⟩).finalScore ≤ 100 :=
  (C1_amended (3/10) (2/5) (3/10) 80 90 70 none (by norm_num) (by norm_num)
    (by norm_num) (by norm_num) (by norm_num) (by norm_num)).2

/-! ## C2: decision thresholds -/

/-- C2: under the default thresholds, `approve` iff score ≥ 70 and
confidence ≥ 70; `flag` iff score < 40 and confidence ≥ 60; confidence < 50
forces `pending_review`; every remaining case is `pending_review`. -/
theorem C2_theorem (f c : ℚ) (hf : 0 ≤ f ∧ f ≤ 100) (hc : 0 ≤ c ∧ c ≤ 100) :
    ((Workflow.makeDecision Workflow.defaultConfig f c).1 =
        Workflow.Decision.approved ↔ 70 ≤ f ∧ 70 ≤ c) ∧
    ((Workflow.makeDecision Workflow.defaultConfig f c).1 =
        Workflow.Decision.flagged ↔ f < 40 ∧ 60 ≤ c) ∧
    (c < 50 → (Workflow.makeDecision Workflow.defaultConfig f c).1 =
      Workflow.Decision.pending_review) ∧
    (¬(70 ≤ f ∧ 70 ≤ c) → ¬(f < 40 ∧ 60 ≤ c) →
      (Workflow.makeDecision Workflow.defaultConfig f c).1 =
        Workflow.Decision.pending_review) := by
  by_cases h1 : 70 ≤ f ∧ 70 ≤ c
  · have hd : (Workflow.makeDecision Workflow.defaultConfig f c).1 =
        Workflow.Decision.approved := by
      simp [Workflow.makeDecision, Workflow.defaultConfig, ge_iff_le, h1.1, h1.2]
    refine ⟨by simp [hd, h1.1, h1.2], ?_, ?_, fun hno _ => absurd h1 hno⟩
    · rw [hd]
      constructor
      · intro h
        exact Workflow.Decision.noConfusion h
      · rintro ⟨h40, -⟩
        linarith [h1.1]
    · intro h50
      linarith [h1.2]
  · by_cases h2 : f < 40 ∧ 60 ≤ c
    · have hd : (Workflow.makeDecision Workflow.defaultConfig f c).1 =
          Workflow.Decision.flagged := by
        simp [Workflow.makeDecision, Workflow.defaultConfig, ge_iff_le, h1, h2.1, h2.2]
      refine ⟨?_, by simp [hd, h2.1, h2.2], ?_, fun _ hno => absurd h2 hno⟩
      · rw [hd]
        constructor
        · intro h
          exact Workflow.Decision.noConfusion h
        · intro h70
          exact absurd h70 h1
      · intro h50
        linarith [h2.2]
    · have hd : (Workflow.makeDecision Workflow.defaultConfig f c).1 =
          Workflow.Decision.pending_review := by
        simp only [Workflow.makeDecision, Workflow.defaultConfig, ge_iff_le]
        rw [if_neg (by simpa using h1), if_neg (by simpa using h2)]
        split_ifs <;> rfl
      refine ⟨?_, ?_, fun _ => hd, fun _ _ => hd⟩
      · rw [hd]
        constructor
        · intro h
          exact Workflow.Decision.noConfusion h
        · intro h
          exact absurd h h1
      · rw [hd]
        constructor
        · intro h
          exact Workflow.Decision.noConfusion h
        · intro h
          exact absurd h h2

theorem C2_witness :
    (Workflow.makeDecision Workflow.defaultConfig 70 70).1 =
      Workflow.Decision.approved :=
  (C2_theorem 70 70 (by norm_num) (by norm_num)).1.mpr (by norm_num)

/-! ## C10: the implicit zero-coercion at the merge step -/

/-- C10 (counterexample): a raw external aggregate of 0 is not substituted
with 50: with rule = llm = 60 and every external channel scoring 0, the
engine returns `round(60·0.3 + 60·0.4 + 0·0.3) = 42`, while the claimed
universal substitution would give `round(60·0.3 + 60·0.4 + 50·0.3) = 57`. -/
theorem C10_counterexample :
    (Workflow.calculateFinalScore Workflow.defaultConfig
        ⟨60, 60, 80, some allZeroExternal⟩).breakdown.rawExternal = 0 ∧
    (Workflow.calculateFinalScore Workflow.defaultConfig
        ⟨60, 60, 80, some allZeroExternal⟩).finalScore = 42 ∧
    jsRound (jsMax 0 (jsMin 100 ((60 : ℚ) * (3/10) + (60 : ℚ) * (2/5) + (50 : ℚ) * (3/10)))) = 57 := by
  refine ⟨?_, ?_, ?_⟩ <;>
    norm_num [Workflow.calculateFinalScore, Workflow.calculateExternalScore,
      Workflow.channelScore?, zeroChannel, allZeroExternal, Workflow.defaultConfig,
      Workflow.calculateConfidence, Workflow.scoreVariance, Workflow.scoreMean,
      Workflow.agreementBonus, jsOr, jsMin, jsMax, jsRound_eq_floor,
      List.reduceOption, List.filterMap_cons, List.filterMap_nil, id_eq,
      List.cons_ne_nil]

/-- C10 (amended): the zero-coercion applies to the rule-based score, the
semantic score and the semantic confidence (each via `|| 50`), so replacing
any zero among them with 50 leaves the result unchanged; the external
aggregate receives no such substitution (see the counterexample). -/
theorem C10_amended (cfg : Workflow.Config) (r l c : ℚ)
    (ext : Option Workflow.ExternalData) :
    Workflow.calculateFinalScore cfg ⟨0, l, c, ext⟩ =
      Workflow.calculateFinalScore cfg ⟨50, l, c, ext⟩ ∧
    Workflow.calculateFinalScore cfg ⟨r, 0, c, ext⟩ =
      Workflow.calculateFinalScore cfg ⟨r, 50, c, ext⟩ ∧
    Workflow.calculateFinalScore cfg ⟨r, l, 0, ext⟩ =
      Workflow.calculateFinalScore cfg ⟨r, l, 50, ext⟩ := by
  refine ⟨?_, ?_, ?_⟩ <;> norm_num [Workflow.calculateFinalScore, jsOr]

/-! ## C3: the confidence computation -/

def seventyChannel : Workflow.ChannelResult := { score := some 70 }

def allSeventyExternal : Workflow.ExternalData :=
  { email := some seventyChannel, phone := some seventyChannel,
    company := some seventyChannel, domain := some seventyChannel }

/-- The confidence computation exactly as claim C3 words it: start at the
semantic confidence itself, apply the std-dev penalties, and add the
agreement bonus when all raw scores are `≥ 70` (not strictly above) or all
are `< 40`; clamp to [0,100]. Stated with the variance comparisons that are
equivalent to the std-dev comparisons (`stdDev_gt_iff`). -/
def claimedConfidenceC3 (s1 s2 s3 c : ℚ) : ℚ :=
  let variance := Workflow.scoreVariance s1 s2 s3
  let afterPenalty := if variance > 400 then c - 15 else if variance > 100 then c - 8 else c
  let withBonus :=
    if (70 ≤ s1 ∧ 70 ≤ s2 ∧ 70 ≤ s3) ∨ (s1 < 40 ∧ s2 < 40 ∧ s3 < 40) then afterPenalty + 10
    else afterPenalty
  jsMax 0 (jsMin 100 withBonus)

/-- C3 (counterexample): with raw scores (70, 70, 70) and semantic
confidence 0, the claim's computation yields 10 (base 0, agreement bonus at
the `≥ 70` boundary), but the engine yields 50: the zero confidence is
coerced to a base of 50 by `confidence || 50`, and the bonus needs scores
strictly above 70. -/
theorem C3_counterexample :
    (Workflow.calculateFinalScore Workflow.defaultConfig
        ⟨70, 70, 0, some allSeventyExternal⟩).confidence = 50 ∧
    claimedConfidenceC3 70 70 70 0 = 10 := by
  constructor <;>
    norm_num [Workflow.calculateFinalScore, Workflow.calculateExternalScore,
      Workflow.channelScore?, seventyChannel, allSeventyExternal, Workflow.defaultConfig,
      Workflow.calculateConfidence, Workflow.scoreVariance, Workflow.scoreMean,
      Workflow.agreementBonus, claimedConfidenceC3, jsOr, jsMin, jsMax, jsRound_eq_floor,
      List.reduceOption, List.filterMap_cons, List.filterMap_nil, id_eq, List.cons_ne_nil]

/-- C3 (amended): the engine's confidence equals
`round(clamp(base + penalty + bonus, 0, 100))` where `base` is the
zero-coerced semantic confidence (`c || 50`), the penalty is −15 when the
true standard deviation of the (zero-coerced) raw scores exceeds 20, −8
when it exceeds 10, and the bonus is +10 exactly when all three scores are
strictly above 70 or all strictly below 40. -/
theorem C3_amended (r l c : ℚ) (ext : Option Workflow.ExternalData)
    (hr : 0 ≤ r ∧ r ≤ 100) (hl : 0 ≤ l ∧ l ≤ 100) (hc : 0 ≤ c ∧ c ≤ 100) :
    (Workflow.calculateFinalScore Workflow.defaultConfig ⟨r, l, c, ext⟩).confidence =
      jsRound (jsMax 0 (jsMin 100
        (jsOr c 50 +
          (if (20 : ℝ) < Real.sqrt ((Workflow.scoreVariance (jsOr r 50) (jsOr l 50)
                (Workflow.calculateExternalScore ext) : ℚ) : ℝ) then -15
           else if (10 : ℝ) < Real.sqrt ((Workflow.scoreVariance (jsOr r 50) (jsOr l 50)
                (Workflow.calculateExternalScore ext) : ℚ) : ℝ) then -8
           else 0) +
          (if (70 < jsOr r 50 ∧ 70 < jsOr l 50 ∧ 70 < Workflow.calculateExternalScore ext) ∨
              (jsOr r 50 < 40 ∧ jsOr l 50 < 40 ∧ Workflow.calculateExternalScore ext < 40)
           then 10 else 0)))) := by
  have h20 : ((20 : ℝ) < Real.sqrt ((Workflow.scoreVariance (jsOr r 50) (jsOr l 50)
      (Workflow.calculateExternalScore ext) : ℚ) : ℝ)) ↔
      400 < Workflow.scoreVariance (jsOr r 50) (jsOr l 50)
        (Workflow.calculateExternalScore ext) := by
    have h := stdDev_gt_iff (Workflow.scoreVariance (jsOr r 50) (jsOr l 50)
      (Workflow.calculateExternalScore ext)) 20 (by norm_num)
    norm_num at h
    exact h
  have h10 : ((10 : ℝ) < Real.sqrt ((Workflow.scoreVariance (jsOr r 50) (jsOr l 50)
      (Workflow.calculateExternalScore ext) : ℚ) : ℝ)) ↔
      100 < Workflow.scoreVariance (jsOr r 50) (jsOr l 50)
        (Workflow.calculateExternalScore ext) := by
    have h := stdDev_gt_iff (Workflow.scoreVariance (jsOr r 50) (jsOr l 50)
      (Workflow.calculateExternalScore ext)) 10 (by norm_num)
    norm_num at h
    exact h
  simp only [Workflow.calculateFinalScore, Workflow.calculateConfidence,
    Workflow.agreementBonus, decide_eq_true_eq, h20, h10, gt_iff_lt]
  split_ifs <;> ring_nf

theorem C3_amended_witness :
    (Workflow.calculateFinalScore Workflow.defaultConfig ⟨10, 90, 60, none⟩).confidence = 45 := by
  have h := C3_amended 10 90 60 none (by norm_num) (by norm_num) (by norm_num)
  rw [h]
  have hvar : Workflow.scoreVariance (jsOr 10 50) (jsOr 90 50)
      (Workflow.calculateExternalScore none) = 3200/3 := by
    norm_num [Workflow.scoreVariance, Workflow.scoreMean, Workflow.calculateExternalScore, jsOr]
  have h20 : (20 : ℝ) < Real.sqrt ((Workflow.scoreVariance (jsOr 10 50) (jsOr 90 50)
      (Workflow.calculateExternalScore none) : ℚ) : ℝ) := by
    have hb := stdDev_gt_iff (Workflow.scoreVariance (jsOr 10 50) (jsOr 90 50)
      (Workflow.calculateExternalScore none)) 20 (by norm_num)
    norm_num at hb
    exact hb.mpr (by rw [hvar]; norm_num)
  rw [if_pos h20, if_neg (by norm_num [jsOr, Workflow.calculateExternalScore])]
  norm_num [jsOr, jsMin, jsMax, jsRound_eq_floor]

/-! ## C8 and C9: monotonicity of the confidence adjustments -/

theorem pairwise_sq_bound {x y : ℚ} (hx1 : -20 ≤ x) (hx2 : x ≤ 20)
    (hy1 : -20 ≤ y) (hy2 : y ≤ 20) (hs1 : -20 ≤ x + y) (hs2 : x + y ≤ 20) :
    x ^ 2 + y ^ 2 + (x + y) ^ 2 ≤ 900 := by
  rcases le_or_lt 0 (x * y) with h | h
  · nlinarith
  · rcases le_or_lt 0 (x + y) with hs | hs
    · rcases le_or_lt 0 x with hx | hx
      · nlinarith
      · nlinarith
    · rcases le_or_lt 0 x with hx | hx
      · nlinarith
      · nlinarith

/-- Three scores inside [80,100] have variance at most 100 (in fact at most
800/9), so neither standard-deviation penalty can fire. -/
theorem variance_le_of_box {s1 s2 s3 : ℚ}
    (h1 : 80 ≤ s1 ∧ s1 ≤ 100) (h2 : 80 ≤ s2 ∧ s2 ≤ 100) (h3 : 80 ≤ s3 ∧ s3 ≤ 100) :
    Workflow.scoreVariance s1 s2 s3 ≤ 100 := by
  have h9 := scoreVariance_mul_nine s1 s2 s3
  have hp : (s1 - s2) ^ 2 + (s2 - s3) ^ 2 + ((s1 - s2) + (s2 - s3)) ^ 2 ≤ 900 :=
    pairwise_sq_bound (by linarith [h1.1, h2.2]) (by linarith [h1.2, h2.1])
      (by linarith [h2.1, h3.2]) (by linarith [h2.2, h3.1])
      (by linarith [h1.1, h3.2]) (by linarith [h1.2, h3.1])
  have hkey : (s1 - s3) ^ 2 = ((s1 - s2) + (s2 - s3)) ^ 2 := by ring
  linarith [h9, hp, hkey]

/-- A score of 20 among two scores that are at least 80 pushes the variance
strictly above the high threshold 400. -/
theorem variance_gt_of_low_outlier {u v : ℚ} (hu : 80 ≤ u) (hv : 80 ≤ v) :
    400 < Workflow.scoreVariance 20 u v := by
  have h9 := scoreVariance_mul_nine 20 u v
  nlinarith [sq_nonneg (u - v),
    mul_nonneg (by linarith : (0:ℚ) ≤ u - 80) (by linarith : (0:ℚ) ≤ u + 40),
    mul_nonneg (by linarith : (0:ℚ) ≤ v - 80) (by linarith : (0:ℚ) ≤ v + 40)]

theorem scoreVariance_swap₁ (a b c : ℚ) :
    Workflow.scoreVariance a b c = Workflow.scoreVariance b a c := by
  unfold Workflow.scoreVariance Workflow.scoreMean
  ring

theorem scoreVariance_rot (a b c : ℚ) :
    Workflow.scoreVariance a b c = Workflow.scoreVariance b c a := by
  unfold Workflow.scoreVariance Workflow.scoreMean
  ring

theorem agreementBonus_high {s1 s2 s3 : ℚ} (h1 : 70 < s1) (h2 : 70 < s2) (h3 : 70 < s3) :
    Workflow.agreementBonus s1 s2 s3 = true := by
  simp only [Workflow.agreementBonus, decide_eq_true_eq]
  exact Or.inl ⟨h1, h2, h3⟩

theorem agreementBonus_false_of (s1 s2 s3 : ℚ)
    (hno1 : ¬(70 < s1 ∧ 70 < s2 ∧ 70 < s3)) (hno2 : ¬(s1 < 40 ∧ s2 < 40 ∧ s3 < 40)) :
    Workflow.agreementBonus s1 s2 s3 = false := by
  simp only [Workflow.agreementBonus, decide_eq_false_iff_not]
  rintro (h | h)
  exacts [hno1 h, hno2 h]

theorem calcConf_box (s1 s2 s3 c : ℚ)
    (h1 : 80 ≤ s1 ∧ s1 ≤ 100) (h2 : 80 ≤ s2 ∧ s2 ≤ 100) (h3 : 80 ≤ s3 ∧ s3 ≤ 100) :
    Workflow.calculateConfidence s1 s2 s3 c = jsMax 0 (jsMin 100 (c + 10)) := by
  have hv := variance_le_of_box h1 h2 h3
  have hb : Workflow.agreementBonus s1 s2 s3 = true :=
    agreementBonus_high (by linarith [h1.1]) (by linarith [h2.1]) (by linarith [h3.1])
  simp only [Workflow.calculateConfidence]
  rw [hb, if_pos rfl, if_neg (not_lt.mpr (hv.trans (by norm_num : (100:ℚ) ≤ 400))),
    if_neg (not_lt.mpr hv)]

theorem calcConf_low₁ (s2 s3 c : ℚ) (h2 : 80 ≤ s2 ∧ s2 ≤ 100) (h3 : 80 ≤ s3 ∧ s3 ≤ 100) :
    Workflow.calculateConfidence 20 s2 s3 c = jsMax 0 (jsMin 100 (c - 15)) := by
  have hv : 400 < Workflow.scoreVariance 20 s2 s3 := variance_gt_of_low_outlier h2.1 h3.1
  have hb : Workflow.agreementBonus 20 s2 s3 = false :=
    agreementBonus_false_of _ _ _ (fun h => by linarith [h.1]) (fun h => by linarith [h.2.1, h2.1])
  simp only [Workflow.calculateConfidence]
  rw [hb, if_neg Bool.false_ne_true, if_pos hv]

theorem calcConf_low₂ (s1 s3 c : ℚ) (h1 : 80 ≤ s1 ∧ s1 ≤ 100) (h3 : 80 ≤ s3 ∧ s3 ≤ 100) :
    Workflow.calculateConfidence s1 20 s3 c = jsMax 0 (jsMin 100 (c - 15)) := by
  have hv : 400 < Workflow.scoreVariance s1 20 s3 := by
    rw [scoreVariance_swap₁]
    exact variance_gt_of_low_outlier h1.1 h3.1
  have hb : Workflow.agreementBonus s1 20 s3 = false :=
    agreementBonus_false_of _ _ _ (fun h => by linarith [h.2.1]) (fun h => by linarith [h.1, h1.1])
  simp only [Workflow.calculateConfidence]
  rw [hb, if_neg Bool.false_ne_true, if_pos hv]

theorem calcConf_low₃ (s1 s2 c : ℚ) (h1 : 80 ≤ s1 ∧ s1 ≤ 100) (h2 : 80 ≤ s2 ∧ s2 ≤ 100) :
    Workflow.calculateConfidence s1 s2 20 c = jsMax 0 (jsMin 100 (c - 15)) := by
  have hv : 400 < Workflow.scoreVariance s1 s2 20 := by
    rw [scoreVariance_rot, scoreVariance_swap₁]
    exact variance_gt_of_low_outlier h2.1 h1.1
  have hb : Workflow.agreementBonus s1 s2 20 = false :=
    agreementBonus_false_of _ _ _ (fun h => by linarith [h.2.2]) (fun h => by linarith [h.1, h1.1])
  simp only [Workflow.calculateConfidence]
  rw [hb, if_neg Bool.false_ne_true, if_pos hv]

/-- C8: for any base semantic confidence in [0,100], three raw scores all in
[80,100] produce a strictly higher confidence than the otherwise-identical
computation with any one of them replaced by 20. -/
theorem C8_theorem (c s1 s2 s3 : ℚ) (hc : 0 ≤ c ∧ c ≤ 100)
    (h1 : 80 ≤ s1 ∧ s1 ≤ 100) (h2 : 80 ≤ s2 ∧ s2 ≤ 100) (h3 : 80 ≤ s3 ∧ s3 ≤ 100) :
    Workflow.calculateConfidence 20 s2 s3 c < Workflow.calculateConfidence s1 s2 s3 c ∧
    Workflow.calculateConfidence s1 20 s3 c < Workflow.calculateConfidence s1 s2 s3 c ∧
    Workflow.calculateConfidence s1 s2 20 c < Workflow.calculateConfidence s1 s2 s3 c := by
  have hhigh := calcConf_box s1 s2 s3 c h1 h2 h3
  refine ⟨?_, ?_, ?_⟩
  · rw [hhigh, calcConf_low₁ s2 s3 c h2 h3]
    exact clamp_lt_clamp (by linarith) (by linarith [hc.2]) (by linarith [hc.1])
  · rw [hhigh, calcConf_low₂ s1 s3 c h1 h3]
    exact clamp_lt_clamp (by linarith) (by linarith [hc.2]) (by linarith [hc.1])
  · rw [hhigh, calcConf_low₃ s1 s2 c h1 h2]
    exact clamp_lt_clamp (by linarith) (by linarith [hc.2]) (by linarith [hc.1])

theorem C8_witness :
    Workflow.calculateConfidence 20 90 90 50 < Workflow.calculateConfidence 90 90 90 50 :=
  (C8_theorem 50 90 90 90 (by norm_num) (by norm_num) (by norm_num) (by norm_num)).1

/-- C9 (counterexample): at semantic confidence 0, scores (0,50,100) have
standard deviation above 20 and (50,50,50) at most 20, both without the
agreement bonus, yet both computations clamp to 0 — the high-variance one is
not strictly lower. -/
theorem C9_counterexample :
    (20 : ℝ) < Real.sqrt ((Workflow.scoreVariance 0 50 100 : ℚ) : ℝ) ∧
    Real.sqrt ((Workflow.scoreVariance 50 50 50 : ℚ) : ℝ) ≤ 20 ∧
    Workflow.agreementBonus 0 50 100 = Workflow.agreementBonus 50 50 50 ∧
    ¬(Workflow.calculateConfidence 0 50 100 0 < Workflow.calculateConfidence 50 50 50 0) := by
  have hv1 : Workflow.scoreVariance 0 50 100 = 5000/3 := by
    norm_num [Workflow.scoreVariance, Workflow.scoreMean]
  have hv2 : Workflow.scoreVariance 50 50 50 = 0 := by
    norm_num [Workflow.scoreVariance, Workflow.scoreMean]
  refine ⟨?_, ?_, ?_, ?_⟩
  · have hb := stdDev_gt_iff (Workflow.scoreVariance 0 50 100) 20 (by norm_num)
    norm_num at hb
    exact hb.mpr (by rw [hv1]; norm_num)
  · rw [hv2]
    norm_num [Real.sqrt_zero]
  · rw [agreementBonus_false_of 0 50 100 (by norm_num) (by norm_num),
      agreementBonus_false_of 50 50 50 (by norm_num) (by norm_num)]
  · have e1 : Workflow.calculateConfidence 0 50 100 0 = 0 := by
      norm_num [Workflow.calculateConfidence, Workflow.scoreVariance, Workflow.scoreMean,
        Workflow.agreementBonus, jsMin, jsMax]
    have e2 : Workflow.calculateConfidence 50 50 50 0 = 0 := by
      norm_num [Workflow.calculateConfidence, Workflow.scoreVariance, Workflow.scoreMean,
        Workflow.agreementBonus, jsMin, jsMax]
    rw [e1, e2]
    norm_num

/-- C9 (amended): a computation whose raw scores' standard deviation exceeds
the high threshold 20 yields a strictly lower confidence than an
otherwise-identical computation with standard deviation at most 20 and the
same agreement-bonus status, provided the latter's clamped result is
positive; when both clamp to 0 the two coincide. -/
theorem C9_amended (c b1 b2 b3 u1 u2 u3 : ℚ) (hc : 0 ≤ c ∧ c ≤ 100)
    (hhigh : (20 : ℝ) < Real.sqrt ((Workflow.scoreVariance b1 b2 b3 : ℚ) : ℝ))
    (hlow : Real.sqrt ((Workflow.scoreVariance u1 u2 u3 : ℚ) : ℝ) ≤ 20)
    (hbonus : Workflow.agreementBonus b1 b2 b3 = Workflow.agreementBonus u1 u2 u3)
    (hpos : 0 < Workflow.calculateConfidence u1 u2 u3 c) :
    Workflow.calculateConfidence b1 b2 b3 c < Workflow.calculateConfidence u1 u2 u3 c := by
  have hv1 : 400 < Workflow.scoreVariance b1 b2 b3 := by
    have h := (stdDev_gt_iff (Workflow.scoreVariance b1 b2 b3) 20 (by norm_num)).mp hhigh
    norm_num at h
    exact h
  have hv2 : Workflow.scoreVariance u1 u2 u3 ≤ 400 := by
    by_contra hgt
    push_neg at hgt
    have h := (stdDev_gt_iff (Workflow.scoreVariance u1 u2 u3) 20 (by norm_num)).mpr
      (by norm_num; exact hgt)
    exact absurd h (not_lt.mpr hlow)
  simp only [Workflow.calculateConfidence] at hpos ⊢
  rw [hbonus]
  rcases hB : Workflow.agreementBonus u1 u2 u3 with _ | _
  · rw [hB] at hpos
    rw [if_neg Bool.false_ne_true] at hpos
    rw [if_neg Bool.false_ne_true, if_neg Bool.false_ne_true]
    rw [if_pos hv1]
    rw [if_neg (not_lt.mpr hv2)] at hpos ⊢
    by_cases h100 : Workflow.scoreVariance u1 u2 u3 > 100
    · rw [if_pos h100] at hpos ⊢
      exact clamp_lt_clamp (by linarith) (by linarith [hc.2]) (pos_of_clamp_pos hpos)
    · rw [if_neg h100] at hpos ⊢
      exact clamp_lt_clamp (by linarith) (by linarith [hc.2]) (pos_of_clamp_pos hpos)
  · rw [hB] at hpos
    rw [if_pos rfl] at hpos
    rw [if_pos rfl, if_pos rfl]
    rw [if_pos hv1]
    rw [if_neg (not_lt.mpr hv2)] at hpos ⊢
    by_cases h100 : Workflow.scoreVariance u1 u2 u3 > 100
    · rw [if_pos h100] at hpos ⊢
      exact clamp_lt_clamp (by linarith) (by linarith [hc.2]) (pos_of_clamp_pos hpos)
    · rw [if_neg h100] at hpos ⊢
      exact clamp_lt_clamp (by linarith) (by linarith [hc.2]) (pos_of_clamp_pos hpos)

theorem C9_amended_witness :
    Workflow.calculateConfidence 0 50 100 50 < Workflow.calculateConfidence 50 50 50 50 := by
  have hv1 : Workflow.scoreVariance 0 50 100 = 5000/3 := by
    norm_num [Workflow.scoreVariance, Workflow.scoreMean]
  have hv2 : Workflow.scoreVariance 50 50 50 = 0 := by
    norm_num [Workflow.scoreVariance, Workflow.scoreMean]
  refine C9_amended 50 0 50 100 50 50 50 (by norm_num) ?_ ?_ ?_ ?_
  · have hb := stdDev_gt_iff (Workflow.scoreVariance 0 50 100) 20 (by norm_num)
    norm_num at hb
    exact hb.mpr (by rw [hv1]; norm_num)
  · rw [hv2]
    norm_num [Real.sqrt_zero]
  · rw [agreementBonus_false_of 0 50 100 (by norm_num) (by norm_num),
      agreementBonus_false_of 50 50 50 (by norm_num) (by norm_num)]
  · norm_num [Workflow.calculateConfidence, Workflow.scoreVariance, Workflow.scoreMean,
      Workflow.agreementBonus, jsMin, jsMax]

/-! ## C4: the Semantic Assessor Adapter -/

theorem normalizeScoreField_bounds (j : LLM.JVal) :
    0 ≤ LLM.normalizeScoreField j ∧ LLM.normalizeScoreField j ≤ 100 := by
  rcases j with q | s | l | _ <;> simp only [LLM.normalizeScoreField]
  · split_ifs with h
    · exact ⟨jsRound_nonneg h.1, jsRound_le_hundred h.2⟩
    · norm_num
  all_goals norm_num

theorem normalizeScoreField_invalid {j : LLM.JVal} (h : j.isValidScore = false) :
    LLM.normalizeScoreField j = 50 := by
  rcases j with q | s | l | _ <;>
    simp only [LLM.JVal.isValidScore, LLM.normalizeScoreField, decide_eq_false_iff_not] at h ⊢
  · rw [if_neg h]

def badResponse : LLM.GeminiResponse :=
  { score := .str "high", confidence := .str "unknown",
    reasoning := .str "model returned prose", recommendation := .str "maybe" }

/-- C4 (counterexample): a parseable payload whose `score` and `confidence`
fields are non-numeric is not degraded to `{score:50, confidence:0, error}`:
the adapter returns score 50 and confidence 50 with no recorded error. -/
theorem C4_counterexample :
    (LLM.scoreRecruiter (.parsed badResponse)).score = 50 ∧
    (LLM.scoreRecruiter (.parsed badResponse)).confidence = 50 ∧
    (LLM.scoreRecruiter (.parsed badResponse)).error = false :=
  ⟨rfl, rfl, rfl⟩

/-- C4 (amended): the adapter is a total function of the provider outcome.
A hard failure (missing API key, call failure or timeout, unparseable
response) returns exactly score 50, confidence 0, with the cause recorded as
an error — so the workflow records semantic confidence 0 for that run. A
parsed payload is normalized field-wise: an invalid `score` or `confidence`
is replaced by the default 50 (not 0) and no error is recorded. In every
case the returned score and confidence lie in [0,100]. -/
theorem C4_amended (o : LLM.ProviderOutcome) :
    (0 ≤ (LLM.scoreRecruiter o).score ∧ (LLM.scoreRecruiter o).score ≤ 100 ∧
      0 ≤ (LLM.scoreRecruiter o).confidence ∧ (LLM.scoreRecruiter o).confidence ≤ 100) ∧
    (o.isHardFailure = true →
      (LLM.scoreRecruiter o).score = 50 ∧ (LLM.scoreRecruiter o).confidence = 0 ∧
      (LLM.scoreRecruiter o).error = true) ∧
    (∀ resp, o = .parsed resp →
      (LLM.scoreRecruiter o).error = false ∧
      (resp.score.isValidScore = false → (LLM.scoreRecruiter o).score = 50) ∧
      (resp.confidence.isValidScore = false →
        (LLM.scoreRecruiter o).confidence = 50)) := by
  rcases o with _ | msg | raw | resp
  · exact ⟨by norm_num [LLM.scoreRecruiter, LLM.fallbackScore], fun _ => ⟨rfl, rfl, rfl⟩,
      fun resp h => LLM.ProviderOutcome.noConfusion h⟩
  · exact ⟨by norm_num [LLM.scoreRecruiter, LLM.fallbackScore], fun _ => ⟨rfl, rfl, rfl⟩,
      fun resp h => LLM.ProviderOutcome.noConfusion h⟩
  · exact ⟨by norm_num [LLM.scoreRecruiter, LLM.fallbackScore], fun _ => ⟨rfl, rfl, rfl⟩,
      fun resp h => LLM.ProviderOutcome.noConfusion h⟩
  · refine ⟨?_, ?_, ?_⟩
    · have hs := normalizeScoreField_bounds resp.score
      have hcf := normalizeScoreField_bounds resp.confidence
      exact ⟨hs.1, hs.2, hcf.1, hcf.2⟩
    · intro h
      exact Bool.noConfusion h
    · intro resp2 h
      obtain rfl : resp2 = resp := (LLM.ProviderOutcome.parsed.injEq _ _).mp h.symm
      exact ⟨rfl, fun hbad => normalizeScoreField_invalid hbad,
        fun hbad => normalizeScoreField_invalid hbad⟩

theorem C4_amended_witness :
    (LLM.scoreRecruiter (.callFailure "timeout of 10000ms exceeded")).score = 50 ∧
    (LLM.scoreRecruiter (.callFailure "timeout of 10000ms exceeded")).confidence = 0 ∧
    (LLM.scoreRecruiter (.callFailure "timeout of 10000ms exceeded")).error = true :=
  (C4_amended (.callFailure "timeout of 10000ms exceeded")).2.1 rfl

/-! ## C7: the Batch Coordinator -/

def scoreWithInvalidB : String → Except String Unit := fun recruiterId =>
  if recruiterId = "b" then .error "Recruiter not found: b" else .ok ()

/-- C7: at the claimed failing input — ids ["a","b","c"], concurrency 2,
"b" structurally invalid — `continueOnError = true` behaves as claimed
(three results, "b" failed, "a" and "c" successful), but with
`continueOnError = false` the re-thrown failure is captured by
`Promise.allSettled` and pushed into `results` as the rejection reason, and
the remaining chunk containing "c" is still processed: the first fatal
failure does not abort the remaining work. -/
theorem C7_theorem :
    (Workflow.batchScoreRecruiters scoreWithInvalidB ["a", "b", "c"] 2 true).results =
      [.ok "a", .failed "b" "Recruiter not found: b", .ok "c"] ∧
    (Workflow.batchScoreRecruiters scoreWithInvalidB ["a", "b", "c"] 2 true).total = 3 ∧
    (Workflow.batchScoreRecruiters scoreWithInvalidB ["a", "b", "c"] 2 true).successful = 2 ∧
    (Workflow.batchScoreRecruiters scoreWithInvalidB ["a", "b", "c"] 2 true).failed = 1 ∧
    (Workflow.batchScoreRecruiters scoreWithInvalidB ["a", "b", "c"] 2 false).results =
      [.ok "a", .rejectedReason "Recruiter not found: b", .ok "c"] := by
  refine ⟨?_, ?_, ?_, ?_, ?_⟩ <;>
    simp [Workflow.batchScoreRecruiters, Workflow.chunkList, Workflow.chunkListAux,
      scoreWithInvalidB, Workflow.BatchEntry.isSuccess]

/-! ## C6: the Rule Engine -/

theorem clamp_nonneg (x : ℚ) : 0 ≤ jsMax 0 (jsMin 100 x) := by
  rw [jsMax_eq]
  exact le_max_left _ _

theorem clamp_le_hundred (x : ℚ) : jsMax 0 (jsMin 100 x) ≤ 100 := by
  rw [jsMax_eq, jsMin_eq]
  exact max_le (by norm_num) (min_le_left _ _)

theorem rules_final_bounds (d : Rules.RuleDetails) :
    0 ≤ Rules.calculateFinalScore d ∧ Rules.calculateFinalScore d ≤ 100 :=
  ⟨jsRound_nonneg (clamp_nonneg _), jsRound_le_hundred (clamp_le_hundred _)⟩

def trivialParsers : Parsers :=
  { isEmail := fun _ => false, isURL := fun _ => false, isURLProto := fun _ => false,
    parseURL := fun _ => none }

def nullCompanySubject : Rules.Subject :=
  { role := some "Recruiter", industry := some "Technology",
    businessEmail := some "jane@acme.com", phoneNumber := some "4155550100",
    websiteUrl := some "https://acme.com" }

/-- C6 (counterexample): a subject whose `companyName` is missing makes
`checkKeywords` dereference it without a guard, so `scoreRecruiter` throws
instead of degrading to a neutral score. -/
theorem C6_counterexample :
    Rules.scoreRecruiter trivialParsers nullCompanySubject =
      .error "TypeError: data.companyName is undefined" := rfl

theorem checkKeywords_ok {s : Rules.Subject} {cn rl ind : String}
    (hcn : s.companyName = some cn) (hrl : s.role = some rl)
    (hind : s.industry = some ind) :
    ∃ r, Rules.checkKeywords s = .ok r := by
  rcases hres : Rules.checkKeywords s with msg | r
  · exfalso
    simp only [Rules.checkKeywords, hcn, hrl, hind] at hres
    exact Except.noConfusion hres
  · exact ⟨r, rfl⟩

theorem analyzeEmail_ok (isEmail : String → Bool)
    (hsplit : ∀ e, isEmail e = true → 2 ≤ (jsSplit '@' e).length)
    (em : Option String) :
    ∃ cr, Rules.analyzeEmail isEmail em = .ok cr ∧ (em = none → cr.score = 30) ∧
      (∀ e, em = some e → isEmail e = false → cr.score = 30) := by
  rcases em with _ | e
  · exact ⟨_, rfl, fun _ => rfl, fun e h => Option.noConfusion h⟩
  · by_cases h : e = "" ∨ isEmail e = false
    · have hres : Rules.analyzeEmail isEmail (some e) =
          .ok ⟨30, [Rules.Flag.mk "invalid_email" "high" (-50)]⟩ := by
        simp only [Rules.analyzeEmail, if_pos h]
      exact ⟨_, hres, fun h2 => Option.noConfusion h2, fun e2 h2 h3 => rfl⟩
    · push_neg at h
      obtain ⟨he, hie⟩ := h
      have hie' : isEmail e = true := by
        cases hb : isEmail e
        · exact absurd hb hie
        · rfl
      have hlen : 1 < (jsSplit '@' e).length := by
        have := hsplit e hie'
        omega
      obtain ⟨d, hd⟩ : ∃ d, (jsSplit '@' e)[1]? = some d :=
        ⟨_, List.getElem?_eq_getElem hlen⟩
      rcases hres : Rules.analyzeEmail isEmail (some e) with msg | cr
      · exfalso
        simp only [Rules.analyzeEmail, hd] at hres
        rw [if_neg (by simp [he, hie'])] at hres
        exact Except.noConfusion hres
      · refine ⟨cr, rfl, fun h2 => Option.noConfusion h2, ?_⟩
        intro e2 h2 h3
        injection h2 with h4
        subst h4
        rw [hie'] at h3
        exact Bool.noConfusion h3

theorem analyzeWebsite_invalid (isURLProto : String → Bool)
    (parseURL : String → Option UrlParts) (w : String) (hw : isURLProto w = false) :
    (Rules.analyzeWebsite isURLProto parseURL (some w)).score = 45 := by
  simp only [Rules.analyzeWebsite]
  rw [if_pos (Or.inr hw)]

/-- C6 (amended): provided the subject's `companyName`, `role` and
`industry` attributes are present (the fields `checkKeywords` dereferences
unguarded), `scoreRecruiter` returns a result with score in [0,100] for
every validator behavior and never throws; an absent email, phone or website
degrades the corresponding category to its fixed neutral score (30, 65, 45),
and a present but validator-rejected email or website likewise degrades to
30 and 45. (A present but malformed phone is not given a fixed neutral: the
code subtracts penalties from the phone category's 80 baseline instead. The
validator hypothesis records that `validator.isEmail` only accepts strings
containing `@`, which the unguarded `split('@')[1]` read relies on.) -/
theorem C6_amended (p : Parsers) (s : Rules.Subject)
    (hsplit : ∀ e, p.isEmail e = true → 2 ≤ (jsSplit '@' e).length)
    (hcn : s.companyName.isSome = true) (hrl : s.role.isSome = true)
    (hind : s.industry.isSome = true) :
    ∃ r, Rules.scoreRecruiter p s = .ok r ∧
      0 ≤ r.score ∧ r.score ≤ 100 ∧
      (s.businessEmail = none → r.details.emailDomainScore = 30) ∧
      (∀ e, s.businessEmail = some e → p.isEmail e = false →
        r.details.emailDomainScore = 30) ∧
      (s.phoneNumber = none → r.details.phoneScore = 65) ∧
      (s.websiteUrl = none → r.details.websiteScore = 45) ∧
      (∀ w, s.websiteUrl = some w → p.isURLProto w = false →
        r.details.websiteScore = 45) := by
  obtain ⟨cn, hcn'⟩ := Option.isSome_iff_exists.mp hcn
  obtain ⟨rl, hrl'⟩ := Option.isSome_iff_exists.mp hrl
  obtain ⟨ind, hind'⟩ := Option.isSome_iff_exists.mp hind
  obtain ⟨k, hk⟩ := checkKeywords_ok hcn' hrl' hind'
  obtain ⟨em, hem, hem30, hemInv⟩ := analyzeEmail_ok p.isEmail hsplit s.businessEmail
  rcases hres : Rules.scoreRecruiter p s with msg | r
  · exfalso
    simp only [Rules.scoreRecruiter, hk, hem, bind, Except.bind, pure, Except.pure] at hres
    exact Except.noConfusion hres
  · simp only [Rules.scoreRecruiter, hk, hem, bind, Except.bind, pure, Except.pure,
      Except.ok.injEq] at hres
    subst hres
    refine ⟨_, rfl, (rules_final_bounds _).1, (rules_final_bounds _).2, ?_, ?_, ?_, ?_, ?_⟩
    · intro hnone
      exact hem30 hnone
    · intro e he2 hbad
      exact hemInv e he2 hbad
    · intro hnone
      rw [hnone]
      rfl
    · intro hnone
      rw [hnone]
      rfl
    · intro w hw2 hbad
      rw [hw2]
      exact analyzeWebsite_invalid p.isURLProto p.parseURL w hbad

theorem C6_amended_witness :
    ∃ r, Rules.scoreRecruiter trivialParsers
        { companyName := some "Acme", role := some "Recruiter",
          industry := some "Technology", businessEmail := some "not-an-email" } = .ok r ∧
      0 ≤ r.score ∧ r.score ≤ 100 ∧ r.details.emailDomainScore = 30 ∧
      r.details.phoneScore = 65 ∧ r.details.websiteScore = 45 := by
  obtain ⟨r, hok, hb1, hb2, hemNone, hemInv, hph, hws, hwsInv⟩ :=
    C6_amended trivialParsers
      { companyName := some "Acme", role := some "Recruiter",
        industry := some "Technology", businessEmail := some "not-an-email" }
      (by intro e h; simp [trivialParsers] at h) rfl rfl rfl
  exact ⟨r, hok, hb1, hb2, hemInv "not-an-email" rfl rfl, hph rfl, hws rfl⟩

/-! ## C5: the External Verification Aggregator -/

theorem combineCompanyData_ok_score {cn : Option String}
    {cb : Option ExternalV.ClearbitData} {wd : Option ExternalV.WebData}
    {r : Workflow.ChannelResult}
    (h : ExternalV.combineCompanyData cn cb wd = .ok r) : r.score.isSome = true := by
  unfold ExternalV.combineCompanyData at h
  rcases hp : ExternalV.companyClearbitPhase cn cb with msg | p
  · rw [hp] at h
    exact Except.noConfusion h
  · rw [hp] at h
    simp only [Except.map, Except.ok.injEq] at h
    rw [← h]
    rfl

theorem companyCatch_score_isSome {x : Except String Workflow.ChannelResult}
    (hx : ∀ r, x = .ok r → r.score.isSome = true) :
    (ExternalV.companyCatch x).score.isSome = true := by
  rcases x with msg | r
  · rfl
  · exact hx r rfl

theorem verifyEmail_score_isSome (isEmail : String → Bool) (env : ExternalV.EmailEnv)
    (em : Option String) : (ExternalV.verifyEmail isEmail env em).score.isSome = true := by
  rcases em with _ | e
  · rfl
  · simp only [ExternalV.verifyEmail]
    rcases hq : env.apiOutcome with msg | d <;> split_ifs <;> rfl

theorem verifyPhone_score_isSome (env : ExternalV.PhoneEnv) (ph : Option String) :
    (ExternalV.verifyPhone env ph).score.isSome = true := by
  rcases ph with _ | p
  · rfl
  · simp only [ExternalV.verifyPhone]
    rcases hq : env.apiOutcome with msg | d <;> split_ifs <;> rfl

theorem verifyCompany_score_isSome (env : ExternalV.CompanyEnv) (cn wu : Option String) :
    (ExternalV.verifyCompany env cn wu).score.isSome = true := by
  simp only [ExternalV.verifyCompany]
  exact companyCatch_score_isSome fun r hr => combineCompanyData_ok_score hr

theorem verifyDomain_score_isSome (isURL : String → Bool)
    (parseURL : String → Option UrlParts) (env : ExternalV.DomainEnv)
    (wu : Option String) :
    (ExternalV.verifyDomain isURL parseURL env wu).score.isSome = true := by
  rcases wu with _ | w
  · rfl
  · simp only [ExternalV.verifyDomain]
    rcases hq : parseURL w with _ | u <;> split_ifs <;> rfl

theorem calculateExternalScore_four {e p cp d : Workflow.ChannelResult}
    {qe qp qc qd : ℚ} (he : e.score = some qe) (hp : p.score = some qp)
    (hc : cp.score = some qc) (hd : d.score = some qd) :
    Workflow.calculateExternalScore
        (some { email := some e, phone := some p, company := some cp, domain := some d }) =
      (qe + qp + qc + qd) / 4 := by
  simp only [Workflow.calculateExternalScore, Workflow.channelScore?, he, hp, hc, hd,
    List.reduceOption, List.filterMap_cons, List.filterMap_nil, id_eq,
    List.sum_cons, List.sum_nil, List.length_cons, List.length_nil]
  rw [if_neg (by simp)]
  push_cast
  ring

theorem verifyEmail_timeout (isEmail : String → Bool) (env : ExternalV.EmailEnv)
    (e msg : String) (he : e ≠ "") (hie : isEmail e = true)
    (hkey : env.apiKeyValid = true) (hout : env.apiOutcome = .error msg) :
    ExternalV.verifyEmail isEmail env (some e) =
      { score := some (if env.dnsValid then 40 else 10), isValid := env.dnsValid,
        apiCalled := false, error := some msg } := by
  simp only [ExternalV.verifyEmail, hout]
  rw [if_neg (by simp [he, hie]), if_neg (by simp [hkey])]

/-- C5 (amended): when one channel's provider call times out (here the email
channel), that channel still resolves — via its degraded DNS fallback — to a
numeric score with the error recorded; every channel then carries a numeric
score, and the aggregate equals the arithmetic mean of all FOUR channel
scores, the degraded one included, not of the three other channels. The
merge completes on this data (the embedding is total). -/
theorem C5_amended (isEmail isURL : String → Bool) (parseURL : String → Option UrlParts)
    (env : ExternalV.Env) (ct : ExternalV.Contact) (e msg : String)
    (hmail : ct.businessEmail = some e) (he : e ≠ "") (hie : isEmail e = true)
    (hkey : env.emailEnv.apiKeyValid = true)
    (hout : env.emailEnv.apiOutcome = .error msg) :
    ((ExternalV.verifyAll isEmail isURL parseURL env ct).email.score =
        some (if env.emailEnv.dnsValid then (40 : ℚ) else 10) ∧
      (ExternalV.verifyAll isEmail isURL parseURL env ct).email.error = some msg) ∧
    (∃ qp qc qd : ℚ,
      (ExternalV.verifyAll isEmail isURL parseURL env ct).phone.score = some qp ∧
      (ExternalV.verifyAll isEmail isURL parseURL env ct).company.score = some qc ∧
      (ExternalV.verifyAll isEmail isURL parseURL env ct).domain.score = some qd ∧
      Workflow.calculateExternalScore
          (some (ExternalV.verifyAll isEmail isURL parseURL env ct).toExternalData) =
        ((if env.emailEnv.dnsValid then (40 : ℚ) else 10) + qp + qc + qd) / 4) := by
  have hEm : (ExternalV.verifyAll isEmail isURL parseURL env ct).email =
      { score := some (if env.emailEnv.dnsValid then (40 : ℚ) else 10),
        isValid := env.emailEnv.dnsValid, apiCalled := false, error := some msg } := by
    show ExternalV.verifyEmail isEmail env.emailEnv ct.businessEmail = _
    rw [hmail]
    exact verifyEmail_timeout isEmail env.emailEnv e msg he hie hkey hout
  obtain ⟨qp, hqp⟩ := Option.isSome_iff_exists.mp
    (verifyPhone_score_isSome env.phoneEnv ct.phoneNumber)
  obtain ⟨qc, hqc⟩ := Option.isSome_iff_exists.mp
    (verifyCompany_score_isSome env.companyEnv ct.companyName ct.websiteUrl)
  obtain ⟨qd, hqd⟩ := Option.isSome_iff_exists.mp
    (verifyDomain_score_isSome isURL parseURL env.domainEnv ct.websiteUrl)
  refine ⟨⟨by rw [hEm], by rw [hEm]⟩, qp, qc, qd, hqp, hqc, hqd, ?_⟩
  exact calculateExternalScore_four (by rw [hEm]) hqp hqc hqd

def timeoutEnv : ExternalV.Env :=
  { emailEnv := { apiKeyValid := true, apiOutcome := .error "timeout of 10000ms exceeded",
                  dnsValid := true }
    phoneEnv := { apiKeyValid := true,
                  apiOutcome := .ok { valid := true, lineType := "mobile", carrier := "AT" } }
    companyEnv := { clearbitKeyValid := false, clearbitOutcome := .error "not configured",
                    scrapeOutcome := .ok { hasContactPage := true, hasAboutPage := true,
                                           linkedin := true, contentLength := 6000,
                                           isSSL := true } }
    domainEnv := { dnsValid := true } }

def timeoutContact : ExternalV.Contact :=
  { businessEmail := some "jane.doe@acme.com", phoneNumber := some "+14155550100",
    companyName := some "Acme", websiteUrl := some "https://acme.com" }

/-- C5 (counterexample): with the email channel timing out (DNS fallback
score 40) and the other channels resolving to 95 (phone), 88 (company) and
85 (domain), the aggregate is the mean of all four scores, 77 — not the mean
of the three non-timed-out channels, (95+88+85)/3. -/
theorem C5_counterexample :
    Workflow.calculateExternalScore (some ((ExternalV.verifyAll (fun _ => true) (fun _ => true)
        (fun _ => some ⟨"acme.com", true⟩) timeoutEnv timeoutContact).toExternalData)) = 77 ∧
    ((95 : ℚ) + 88 + 85) / 3 ≠ 77 := by
  constructor
  · norm_num +decide [Workflow.calculateExternalScore, Workflow.channelScore?,
      ExternalV.verifyAll, ExternalV.VerifyAllResult.toExternalData,
      ExternalV.verifyEmail, ExternalV.verifyPhone, ExternalV.verifyCompany,
      ExternalV.companyCatch, ExternalV.combineCompanyData, ExternalV.companyClearbitPhase,
      ExternalV.companyWebPhase, ExternalV.verifyDomain, timeoutEnv, timeoutContact,
      jsMin, jsSplit, splitChar, List.reduceOption, List.filterMap_cons, List.filterMap_nil,
      id_eq, List.cons_ne_nil, Except.toOption, Except.map]
  · norm_num

theorem C5_amended_witness :
    (ExternalV.verifyAll (fun _ => true) (fun _ => true) (fun _ => some ⟨"acme.com", true⟩)
        timeoutEnv timeoutContact).email.error = some "timeout of 10000ms exceeded" :=
  ((C5_amended (fun _ => true) (fun _ => true) (fun _ => some ⟨"acme.com", true⟩)
      timeoutEnv timeoutContact "jane.doe@acme.com" "timeout of 10000ms exceeded"
      rfl (by decide) rfl rfl rfl).1).2

end SpamDetect
